import Mathlib

/-!
Shallow embedding of the eligibility decision engine of
`src/eligibility/eligibility_checker.py` (SC2-Backend), together with proofs
about the claims of its specification.

Python's dynamically typed values are modelled by `PyVal`; operations that can
raise in Python return `Except PyErr _`.  The two oracle calls (the combined
four-criterion evaluator and the skills matcher) are modelled by an
`Option (List (String × PyVal))` parameter: `Option.none` stands for any
transport error or JSON-extraction/parse failure, `Option.some r` for a
successfully parsed JSON object `r`.
-/

set_option autoImplicit false

namespace SC2

/-- A Python runtime value, restricted to the shapes this engine handles.
Dictionaries are association lists with string keys (all dictionary literals in
the source use string keys and no duplicates). -/
inductive PyVal where
  | none
  | bool (b : Bool)
  | int (n : Int)
  | float (q : ℚ)
  | str (s : String)
  | list (xs : List PyVal)
  | dict (kvs : List (String × PyVal))
deriving Repr

/-- A raised Python exception, identified by kind and message. -/
inductive PyErr where
  | typeError (msg : String)
  | valueError (msg : String)
  | keyError (key : String)
deriving Repr, DecidableEq

abbrev Assoc := List (String × PyVal)

instance {ε α : Type} [DecidableEq ε] [DecidableEq α] : DecidableEq (Except ε α) := fun x y =>
  match x, y with
  | .error a, .error b =>
      if h : a = b then isTrue (by rw [h])
      else isFalse (fun hh => h (by injection hh))
  | .ok a, .ok b =>
      if h : a = b then isTrue (by rw [h])
      else isFalse (fun hh => h (by injection hh))
  | .error _, .ok _ => isFalse (fun hh => Except.noConfusion hh)
  | .ok _, .error _ => isFalse (fun hh => Except.noConfusion hh)

mutual

/-- Structural equality on values (Python `==` for non-numeric operands). -/
def pyBeq : PyVal → PyVal → Bool
  | .none, .none => true
  | .bool a, .bool b => a == b
  | .int a, .int b => a == b
  | .float a, .float b => a == b
  | .str a, .str b => a == b
  | .list xs, .list ys => pyBeqList xs ys
  | .dict xs, .dict ys => pyBeqKV xs ys
  | _, _ => false
termination_by structural a => a

def pyBeqList : List PyVal → List PyVal → Bool
  | [], [] => true
  | x :: xs, y :: ys => pyBeq x y && pyBeqList xs ys
  | _, _ => false
termination_by structural a => a

def pyBeqKV : List (String × PyVal) → List (String × PyVal) → Bool
  | [], [] => true
  | (k, x) :: xs, (l, y) :: ys => k == l && pyBeq x y && pyBeqKV xs ys
  | _, _ => false
termination_by structural a => a

end

theorem pyBeq_iff : ∀ a b : PyVal, pyBeq a b = true ↔ a = b := by
  apply pyBeq.induct
    (motive_1 := fun a b => (pyBeq a b = true ↔ a = b))
    (motive_2 := fun xs ys => (pyBeqKV xs ys = true ↔ xs = ys))
    (motive_3 := fun xs ys => (pyBeqList xs ys = true ↔ xs = ys))
  all_goals intros
  all_goals simp_all [pyBeq, pyBeqList, pyBeqKV]
  · rename_i t x p1 p2 p3 p4 p5 p6 p7
    cases t <;> cases x <;> simp_all [pyBeq]
    rename_i b1 b2
    cases b1 <;> cases b2 <;> simp_all
  · rename_i t x h1 h2
    cases t <;> cases x <;> simp_all [pyBeqList]
    exact fun _ _ => h2 _ _ _ _ rfl rfl rfl rfl
  · rename_i t x h1 h2
    cases t <;> cases x <;> simp_all [pyBeqKV]
    exact fun _ _ => h2 _ _ _ _ _ _ rfl rfl rfl rfl

instance : DecidableEq PyVal := fun a b => decidable_of_iff (pyBeq a b = true) (pyBeq_iff a b)

/-- `str.upper()` (the data this program compares is ASCII). -/
def strUpper (s : String) : String := String.mk (s.data.map Char.toUpper)

/-- `str.lower()`. -/
def strLower (s : String) : String := String.mk (s.data.map Char.toLower)

/-- `str.strip()`: surrounding whitespace removed. -/
def strTrim (s : String) : String :=
  String.mk (((s.data.dropWhile Char.isWhitespace).reverse.dropWhile Char.isWhitespace).reverse)

/-- Lexicographic code-point order on character lists (Python string `<=`). -/
def charListLe : List Char → List Char → Bool
  | [], _ => true
  | _ :: _, [] => false
  | a :: as, b :: bs => if a < b then true else if b < a then false else charListLe as bs

/-- Python truthiness, `bool(v)`. -/
def pyTruthy : PyVal → Bool
  | .none => false
  | .bool b => b
  | .int n => decide (n ≠ 0)
  | .float q => decide (q ≠ 0)
  | .str s => decide (s ≠ "")
  | .list xs => !xs.isEmpty
  | .dict kvs => !kvs.isEmpty

/-- Numeric view of a value: Python treats `bool` as an integer for arithmetic
and comparisons. -/
def asNum? : PyVal → Option ℚ
  | .bool b => some (if b then 1 else 0)
  | .int n => some (n : ℚ)
  | .float q => some q
  | _ => Option.none

/-- Python `==` as exercised by this program: numbers compare by value across
the numeric types, and every other comparison the program performs has a
string on at least one side, where equality is structural. -/
def pyEqB (a b : PyVal) : Bool :=
  match asNum? a, asNum? b with
  | some x, some y => decide (x = y)
  | _, _ => decide (a = b)

/-- Python `<=` for the value shapes this program compares: numeric
cross-type and string-string comparisons succeed, any other pair raises
`TypeError`.  (CPython would also order two lists elementwise; no evaluated
input of this development compares lists, and that pair is modelled as a
`TypeError`.) -/
def pyLe (a b : PyVal) : Except PyErr Bool :=
  match asNum? a, asNum? b with
  | some x, some y => .ok (decide (x ≤ y))
  | _, _ =>
      match a, b with
      | .str s, .str t => .ok (charListLe s.data t.data)
      | _, _ => .error (.typeError "unsupported operand types for comparison")

/-- Python `a >= b`, total orders being symmetric to `<=` on the supported
shapes. -/
def pyGe (a b : PyVal) : Except PyErr Bool := pyLe b a

/-- Digits of an unsigned decimal literal folded into a natural number. -/
def digitsVal (cs : List Char) : ℕ :=
  cs.foldl (fun n c => 10 * n + (c.toNat - '0'.toNat)) 0

/-- Parse an unsigned Python decimal literal: `d+`, `d+.d*` or `.d+`.  The
value `i.f` is the rational `(i·10^|f| + f) / 10^|f|`. -/
def parseUnsignedDecimal? (cs : List Char) : Option ℚ :=
  let ip := cs.takeWhile Char.isDigit
  let rest := cs.dropWhile Char.isDigit
  match rest with
  | [] => if ip.isEmpty then Option.none else some (mkRat (digitsVal ip) 1)
  | '.' :: frac =>
      if frac.all Char.isDigit && !(ip.isEmpty && frac.isEmpty) then
        some (mkRat (digitsVal ip * 10 ^ frac.length + digitsVal frac) (10 ^ frac.length))
      else Option.none
  | _ => Option.none

/-- The string form accepted by Python `float(str)`: surrounding whitespace is
stripped and an optional sign precedes the decimal literal.  (Exponent,
`inf` and `nan` forms never occur in this program's data and are not
modelled.) -/
def pyParseFloat? (s : String) : Option ℚ :=
  match (strTrim s).data with
  | '+' :: rest => parseUnsignedDecimal? rest
  | '-' :: rest => (parseUnsignedDecimal? rest).map Neg.neg
  | cs => parseUnsignedDecimal? cs

/-- Python `float(v)`: numbers convert by value, strings are parsed strictly
(raising `ValueError` on failure), every other shape raises `TypeError`. -/
def pyFloat : PyVal → Except PyErr ℚ
  | .bool b => .ok (if b then 1 else 0)
  | .int n => .ok (n : ℚ)
  | .float q => .ok q
  | .str s =>
      match pyParseFloat? s with
      | some q => .ok q
      | _ => .error (.valueError ("could not convert string to float: " ++ s))
  | _ => .error (.typeError "float() argument must be a string or a real number")

/-- Drop trailing zero digits of a fractional part, keeping at least one. -/
def trimFrac (s : String) : String :=
  match (s.data.reverse.dropWhile (· == '0')).reverse with
  | [] => "0"
  | t => String.mk t

/-- Decimal rendering of the rationals that stand for Python floats, matching
`str(float)` on terminating decimals (`17/2 ↦ "8.5"`, `7 ↦ "7.0"`). -/
def qRender (q : ℚ) : String :=
  match (List.range 31).find? (fun k => 10 ^ k % q.den == 0) with
  | some k =>
      let k := max k 1
      let m := q.num.natAbs * (10 ^ k / q.den)
      let fs := toString (m % 10 ^ k)
      let fs := String.mk (List.replicate (k - fs.length) '0') ++ fs
      (if q.num < 0 then "-" else "") ++ toString (m / 10 ^ k) ++ "." ++ trimFrac fs
  | _ => (if q.num < 0 then "-" else "") ++ toString q.num.natAbs ++ "/" ++ toString q.den

mutual

/-- Python `repr(v)` for the shapes of `PyVal` (strings are quoted). -/
def pyReprOf : PyVal → String
  | .none => "None"
  | .bool b => if b then "True" else "False"
  | .int n => toString n
  | .float q => qRender q
  | .str s => "'" ++ s ++ "'"
  | .list xs => "[" ++ String.intercalate ", " (reprList xs) ++ "]"
  | .dict kvs => "\x7b" ++ String.intercalate ", " (reprDict kvs) ++ "\x7d"

def reprList : List PyVal → List String
  | [] => []
  | x :: xs => pyReprOf x :: reprList xs

def reprDict : List (String × PyVal) → List String
  | [] => []
  | (k, v) :: kvs => ("'" ++ k ++ "': " ++ pyReprOf v) :: reprDict kvs

end

/-- Python `str(v)`: the string itself for strings, `repr` otherwise. -/
def pyStrOf : PyVal → String
  | .str s => s
  | v => pyReprOf v

/-- Python `len(v)`. -/
def pyLen : PyVal → Except PyErr ℕ
  | .str s => .ok s.length
  | .list xs => .ok xs.length
  | .dict kvs => .ok kvs.length
  | _ => .error (.typeError "object has no length")

/-- Python iteration: lists yield their elements, strings their characters,
dictionaries their keys. -/
def pyIter : PyVal → Except PyErr (List PyVal)
  | .str s => .ok (s.data.map (fun c => .str (String.mk [c])))
  | .list xs => .ok xs
  | .dict kvs => .ok (kvs.map (fun kv => .str kv.1))
  | _ => .error (.typeError "object is not iterable")

/-- `needle` starts `haystack`. -/
def startsWithB : List Char → List Char → Bool
  | [], _ => true
  | _ :: _, [] => false
  | c :: cs, d :: ds => c == d && startsWithB cs ds

/-- `needle` occurs contiguously inside `haystack`. -/
def substrB (needle : List Char) : List Char → Bool
  | [] => needle.isEmpty
  | c :: rest => startsWithB needle (c :: rest) || substrB needle rest

/-- Python `x in c`: membership via `==` for lists, substring test for
strings, key lookup for dictionaries. -/
def pyIn (x : PyVal) : PyVal → Except PyErr Bool
  | .list ys => .ok (ys.any (pyEqB x))
  | .str t =>
      match x with
      | .str s => .ok (substrB s.data t.data)
      | _ => .error (.typeError "in <string> requires string as left operand")
  | .dict kvs =>
      match x with
      | .str s => .ok (kvs.lookup s).isSome
      | _ => .ok false
  | _ => .error (.typeError "argument is not a container")

/-- A string-typed value, raising `TypeError` otherwise (models calling a
`str` method such as `.upper()` on a non-string). -/
def asStr : PyVal → Except PyErr String
  | .str s => .ok s
  | _ => .error (.typeError "expected a string")

/-- Python `sep.join(v)`: every element must be a string. -/
def pyJoin (sep : String) (v : PyVal) : Except PyErr String := do
  let xs ← pyIter v
  let ss ← xs.mapM asStr
  pure (String.intercalate sep ss)

/-- Python `sep.join(map(str, v))`. -/
def pyJoinStrMap (sep : String) (v : PyVal) : Except PyErr String := do
  let xs ← pyIter v
  pure (String.intercalate sep (xs.map pyStrOf))

/-- Python subscript `v[k]` with a string key. -/
def pySub (v : PyVal) (k : String) : Except PyErr PyVal :=
  match v with
  | .dict kvs =>
      match kvs.lookup k with
      | some x => .ok x
      | _ => .error (.keyError k)
  | _ => .error (.typeError "value is not subscriptable by a string")

/-- Python `d.get(k, default)` on a dictionary given as an association
list. -/
def getD (kvs : Assoc) (k : String) (d : PyVal) : PyVal := ((kvs.lookup k).getD d)

/-- A dictionary-typed value; any other shape raises (models calling `.get`
on a non-dictionary). -/
def asDict : PyVal → Except PyErr Assoc
  | .dict kvs => .ok kvs
  | _ => .error (.typeError "object has no attribute get")

/-! ## The skills matcher (`eligibility_checker.py`, lines 14-193) -/

/-- The `skill_mappings` table of `fallback_skills_matching`. -/
def skill_mappings : List (String × List String) :=
  [("python", ["python", "py"]),
   ("javascript", ["javascript", "js", "node.js", "nodejs"]),
   ("java", ["java"]),
   ("it", ["information technology", "it", "computer science", "cs", "cse"]),
   ("ece", ["electronics and communication", "ece", "electronics"]),
   ("ee", ["electrical engineering", "ee", "electrical"]),
   ("me", ["mechanical engineering", "me", "mechanical"]),
   ("ce", ["civil engineering", "ce", "civil"])]

/-- `skill.lower().strip()` as applied to every skill name. -/
def skillLower (s : String) : String := strTrim (strLower s)

/-- The per-required-skill match test of `fallback_skills_matching`: direct
case-insensitive equality, then the synonym table in both directions, then
substring containment in either direction.  `usl` is the lowered candidate
list, `rl` the lowered required skill. -/
def reqMatches (usl : List String) (rl : String) : Bool :=
  usl.contains rl
  || (match skill_mappings.lookup rl with
      | some syns => usl.any (fun u => syns.contains u)
      | _ => false)
  || usl.any (fun u =>
      match skill_mappings.lookup u with
      | some syns => syns.contains rl
      | _ => false)
  || usl.any (fun u => substrB rl.data u.data || substrB u.data rl.data)

/-- The status string computed from the matched/required counts (shared by
the oracle path and the fallback of the skills matcher). -/
def statusOf (nm nr : ℕ) : String :=
  if nm = nr then "pass" else if 0 < nm then "partial" else "fail"

/-- The message computed from the matched/required counts. -/
def messageOf (nm nr : ℕ) : String :=
  if nm = nr then "All " ++ toString nr ++ " required skills matched"
  else if 0 < nm then
    toString nm ++ " out of " ++ toString nr ++ " required skills matched"
  else "None of the " ++ toString nr ++ " required skills matched"

/-- `fallback_skills_matching` (lines 118-193): deterministic matching by the
rules of `reqMatches`, preserving the order of `required_skills`. -/
def fallback_skills_matching (user_skills required_skills : List String) : Assoc :=
  let usl := user_skills.map skillLower
  let matched := required_skills.filter (fun r => reqMatches usl (skillLower r))
  let missing := required_skills.filter (fun r => !reqMatches usl (skillLower r))
  [("status", .str (statusOf matched.length required_skills.length)),
   ("message", .str (messageOf matched.length required_skills.length)),
   ("matchedSkills", .list (matched.map .str)),
   ("missingSkills", .list (missing.map .str))]

/-- `match_user_skills_with_required` (lines 14-116).  `oracle = some r`
models a skills-matcher response whose text parsed to the JSON object `r`;
`oracle = Option.none` models a transport error or a JSON-extraction/parse
failure (both reach `fallback_skills_matching`).  A `len` failure inside the
accepted-response path is caught by the outer handler and also falls back. -/
def match_user_skills_with_required (user_skills : List PyVal) (required_skills : PyVal)
    (oracle : Option Assoc) : Except PyErr Assoc := do
  if !pyTruthy required_skills then
    pure [("status", .str "pass"),
          ("message", .str "No specific skills required"),
          ("matchedSkills", .list []),
          ("missingSkills", .list [])]
  else if user_skills.isEmpty then do
    let nr ← pyLen required_skills
    pure [("status", .str "fail"),
          ("message", .str ("None of the " ++ toString nr ++ " required skills matched")),
          ("matchedSkills", .list []),
          ("missingSkills", required_skills)]
  else do
    let us ← user_skills.mapM asStr
    match oracle with
    | some r =>
        match pyLen (getD r "matchedSkills" (.list [])), pyLen required_skills with
        | .ok nm, .ok nr =>
            pure [("status", .str (statusOf nm nr)),
                  ("message", .str (messageOf nm nr)),
                  ("matchedSkills", getD r "matchedSkills" (.list [])),
                  ("missingSkills", getD r "missingSkills" (.list []))]
        | _, _ => do
            let req ← (← pyIter required_skills).mapM asStr
            pure (fallback_skills_matching us req)
    | _ => do
        let req ← (← pyIter required_skills).mapM asStr
        pure (fallback_skills_matching us req)

/-! ## The four-criterion evaluators (`eligibility_checker.py`, lines 195-320) -/

/-- The branch-criterion test of `manual_eligibility_check` (line 301):
`"All" in eligible_branches or stream.upper() in [b.upper() for b in
eligible_branches]`, with Python's short-circuiting `or`. -/
def coursePassCompute (stream eligible_branches : PyVal) : Except PyErr Bool := do
  let inAll ← pyIn (.str "All") eligible_branches
  if inAll then pure true
  else do
    let s ← asStr stream
    let bsU ← (← pyIter eligible_branches).mapM asStr
    pure ((bsU.map strUpper).contains (strUpper s))

/-- `manual_eligibility_check` (lines 282-320): the deterministic local
fallback for the four non-skill criteria, raising exactly where the Python
code would (the bare `float()` cast and the bare comparisons). -/
def manual_eligibility_check (user_data eligibility_criteria : Assoc) :
    Except PyErr Assoc := do
  let avg_cgpa := getD user_data "avg_cgpa" (.float 0)
  let stream := getD user_data "stream" (.str "")
  let batch := getD user_data "batch" (.str "")
  let active_backlogs := getD user_data "activeBacklogs" (.int 0)
  let min_cgpa ← pyFloat (getD eligibility_criteria "minCGPA" (.float 0))
  let eligible_branches := getD eligibility_criteria "branches" (.list [])
  let eligible_batches := getD eligibility_criteria "batch" (.list [])
  let max_backlogs := getD eligibility_criteria "backlogs" (.int 0)
  let cgpaPass ← pyGe avg_cgpa (.float min_cgpa)
  let cgpa_status := if cgpaPass then "pass" else "fail"
  let cgpa_message :=
    "Your CGPA (" ++ pyStrOf avg_cgpa ++ ") "
      ++ (if cgpaPass then "meets" else "is below")
      ++ " the minimum requirement (" ++ qRender min_cgpa ++ ")"
  let coursePass ← coursePassCompute stream eligible_branches
  let course_status := if coursePass then "pass" else "fail"
  let course_message ←
    if coursePass then
      pure ("Your course (" ++ pyStrOf stream ++ ") is eligible")
    else do
      let j ← pyJoin ", " eligible_branches
      pure ("Your course (" ++ pyStrOf stream ++ ") is not in the eligible branches: " ++ j)
  let batchList ← pyIter eligible_batches
  let batchPass := (batchList.map pyStrOf).contains (pyStrOf batch)
  let batch_status := if batchPass then "pass" else "fail"
  let batch_message :=
    "Your batch (" ++ pyStrOf batch ++ ") "
      ++ (if batchPass then "is eligible"
          else "is not eligible. Eligible batches: "
            ++ String.intercalate ", " (batchList.map pyStrOf))
  let backlogsPass ← pyLe active_backlogs max_backlogs
  let backlogs_status := if backlogsPass then "pass" else "fail"
  let backlogs_message :=
    "You have " ++ pyStrOf active_backlogs ++ " active backlog(s), "
      ++ (if backlogsPass then "which meets" else "but maximum")
      ++ " the requirement (â‰¤" ++ pyStrOf max_backlogs ++ ")"
  let overall_eligible :=
    cgpa_status == "pass" && course_status == "pass"
      && batch_status == "pass" && backlogs_status == "pass"
  pure [("cgpa", .dict [("status", .str cgpa_status), ("message", .str cgpa_message)]),
        ("course", .dict [("status", .str course_status), ("message", .str course_message)]),
        ("batch", .dict [("status", .str batch_status), ("message", .str batch_message)]),
        ("backlogs", .dict [("status", .str backlogs_status), ("message", .str backlogs_message)]),
        ("overallEligible", .bool overall_eligible)]

/-- `check_eligibility_with_ai` (lines 195-280).  `oracle = some r` models a
response whose extracted text parsed as the JSON object `r`, returned as-is;
`oracle = Option.none` models a transport error or JSON-extraction/parse
failure, both of which fall back to `manual_eligibility_check`. -/
def check_eligibility_with_ai (user_data eligibility_criteria : Assoc)
    (oracle : Option Assoc) : Except PyErr Assoc :=
  match oracle with
  | some r => .ok r
  | _ => manual_eligibility_check user_data eligibility_criteria

/-! ## The end-to-end engine (`eligibility_checker.py`, lines 322-439) -/

/-- The placeholder breakdown entry used when the accepted oracle object
lacks a criterion key. -/
def defaultCheckFailed (what : String) : PyVal :=
  .dict [("status", .str "fail"), ("message", .str (what ++ " check failed"))]

/-- The skill-name extraction loop of `check_detailed_eligibility`
(lines 343-349): strings are kept, dictionaries contribute their `"name"`
value when present, every other entry is dropped. -/
def extractSkillName : PyVal → Option PyVal
  | .str s => some (.str s)
  | .dict kvs => kvs.lookup "name"
  | _ => Option.none

/-- The merged criteria dictionary of `check_detailed_eligibility`
(lines 351-357). -/
def combinedEligibility (criteria eligibility : Assoc) : Assoc :=
  [("minCGPA", getD eligibility "minCGPA" (getD criteria "cgpa" (.float 0))),
   ("branches", getD eligibility "branches" (.list [])),
   ("batch", getD eligibility "batch" (.list [])),
   ("backlogs", getD criteria "backlogs" (.int 0))]

/-- Lines 387-389: the entry for a failing cgpa criterion. -/
def recCgpa (cgpaB : PyVal) (combined_eligibility : Assoc) : Except PyErr (List String) := do
  let st ← pySub cgpaB "status"
  if pyEqB st (.str "fail") then
    pure ["Improve your CGPA to at least "
      ++ pyStrOf (getD combined_eligibility "minCGPA" (.float 0))]
  else pure []

/-- Lines 391-392: the entry for a failing backlogs criterion. -/
def recBacklogs (backlogsB : PyVal) : Except PyErr (List String) := do
  let st ← pySub backlogsB "status"
  if pyEqB st (.str "fail") then
    pure ["Clear your active backlogs before applying"]
  else pure []

/-- Lines 394-396: the entry for a failing course criterion. -/
def recCourse (courseB : PyVal) (combined_eligibility : Assoc) : Except PyErr (List String) := do
  let st ← pySub courseB "status"
  if pyEqB st (.str "fail") then do
    let j ← pyJoin ", " (getD combined_eligibility "branches" (.list []))
    pure ["This opportunity is only for " ++ j ++ " branches"]
  else pure []

/-- Lines 398-400: the entry for a failing batch criterion. -/
def recBatch (batchB : PyVal) (combined_eligibility : Assoc) : Except PyErr (List String) := do
  let st ← pySub batchB "status"
  if pyEqB st (.str "fail") then do
    let j ← pyJoinStrMap ", " (getD combined_eligibility "batch" (.list []))
    pure ["This opportunity is only for " ++ j ++ " batch"]
  else pure []

/-- Lines 402-409: the informational skills entry. -/
def recSkills (skills_result : Assoc) (required_skills : PyVal) :
    Except PyErr (List String) := do
  let st ← pySub (.dict skills_result) "status"
  if pyEqB st (.str "fail") && pyTruthy required_skills then do
    let j ← pyJoin ", " (getD skills_result "missingSkills" (.list []))
    pure ["Consider developing skills in: " ++ j ++ " to strengthen your profile"]
  else if pyEqB st (.str "partial") then do
    let missing := getD skills_result "missingSkills" (.list [])
    if pyTruthy missing then do
      let j ← pyJoin ", " missing
      pure ["Consider developing additional skills in: " ++ j]
    else pure []
  else pure []

/-- Lines 411-420: the closing block. -/
def recClosing (is_eligible : PyVal) (skills_result : Assoc) :
    Except PyErr (List String) :=
  if pyTruthy is_eligible then do
    let st ← pySub (.dict skills_result) "status"
    pure (["You are eligible! Prepare well for the selection process",
           "Review the job description and company information thoroughly"]
      ++ (if pyEqB st (.str "pass") then
            ["Your skills align well with the requirements"]
          else if pyEqB st (.str "partial") then
            ["You have some of the desired skills - highlight them in your application"]
          else []))
  else pure ["Focus on meeting the basic eligibility criteria before applying"]

/-- The recommendation list of `check_detailed_eligibility` (lines 384-420),
generated from the breakdown entries, the skills result, the overall
verdict and the merged criteria, in the source's append order. -/
def buildRecommendations (cgpaB backlogsB courseB batchB : PyVal)
    (skills_result : Assoc) (required_skills is_eligible : PyVal)
    (combined_eligibility : Assoc) : Except PyErr (List String) := do
  let r1 ← recCgpa cgpaB combined_eligibility
  let r2 ← recBacklogs backlogsB
  let r3 ← recCourse courseB combined_eligibility
  let r4 ← recBatch batchB combined_eligibility
  let r5 ← recSkills skills_result required_skills
  let r6 ← recClosing is_eligible skills_result
  pure (r1 ++ r2 ++ r3 ++ r4 ++ r5 ++ r6)

/-- `check_detailed_eligibility` (lines 322-439).  `payload["user"]` and
`payload["post"]` are the Pydantic-validated dictionaries; `eligOracle` and
`skillsOracle` are the two oracle calls, each `some r` for an accepted
parsed object and `Option.none` for any transport or parse failure. -/
def check_detailed_eligibility (user post : Assoc)
    (eligOracle skillsOracle : Option Assoc) : Except PyErr Assoc := do
  let user_id := getD user "id" (.str "")
  let name := getD user "name" (.str "")
  let course := getD user "course" (.str "")
  let stream := getD user "stream" (.str "")
  let batch := getD user "batch" (.str "")
  let institute := getD user "institute" (.str "")
  let avg_cgpa := getD user "avg_cgpa" (.float 0)
  let active_backlogs := getD user "activeBacklogs" (.int 0)
  let skills_count := getD user "skillsCount" (.int 0)
  let user_skills := getD user "skills" (.list [])
  let skillEntries ← pyIter user_skills
  let user_skill_names := skillEntries.filterMap extractSkillName
  let criteria ← asDict (getD post "criteria" (.dict []))
  let eligibility ← asDict (getD post "eligibility" (.dict []))
  let combined_eligibility := combinedEligibility criteria eligibility
  let required_skills := getD criteria "skills" (.list [])
  let ai_eligibility ← check_eligibility_with_ai user combined_eligibility eligOracle
  let skills_result ← match_user_skills_with_required user_skill_names required_skills skillsOracle
  let cgpaB := getD ai_eligibility "cgpa" (defaultCheckFailed "CGPA")
  let backlogsB := getD ai_eligibility "backlogs" (defaultCheckFailed "Backlogs")
  let courseB := getD ai_eligibility "course" (defaultCheckFailed "Course")
  let batchB := getD ai_eligibility "batch" (defaultCheckFailed "Batch")
  let breakdown : Assoc :=
    [("cgpa", cgpaB), ("backlogs", backlogsB), ("course", courseB),
     ("batch", batchB), ("skills", .dict skills_result)]
  let is_eligible := getD ai_eligibility "overallEligible" (.bool false)
  let recommendations ← buildRecommendations cgpaB backlogsB courseB batchB
    skills_result required_skills is_eligible combined_eligibility
  pure [("id", user_id), ("name", name), ("course", course), ("stream", stream),
        ("batch", batch), ("institute", institute), ("avg_cgpa", avg_cgpa),
        ("activeBacklogs", active_backlogs), ("skillsCount", skills_count),
        ("skills", user_skills), ("isEligible", is_eligible),
        ("breakdown", .dict breakdown),
        ("recommendations", .list (recommendations.map .str))]

/-! ## The input normalizer -/

/-- Treat `,` as a decimal separator by mapping it to `.`. -/
def commaFix (c : Char) : Char := if c = ',' then '.' else c

/-- The first decimal number (`d+`, optionally followed by `.d*`) occurring
anywhere in the text, if any. -/
def firstDecimal? : List Char → Option ℚ
  | [] => Option.none
  | c :: rest =>
      if c.isDigit then
        let ip := (c :: rest).takeWhile Char.isDigit
        match (c :: rest).dropWhile Char.isDigit with
        | '.' :: more =>
            let fp := more.takeWhile Char.isDigit
            some (mkRat (digitsVal ip * 10 ^ fp.length + digitsVal fp) (10 ^ fp.length))
        | _ => some (mkRat (digitsVal ip) 1)
      else firstDecimal? rest

/-- Modelled from the spec: `safe_float_conversion` (the Input Normalizer's
`toNumber`) is imported from `eligibility.eligibility_checker` by
`src/test_eligibility_fixes.py` but is missing from that module's source.
Following the specification: numeric input is returned unchanged,
null/missing input yields `0.0`, and for text the first decimal number is
extracted after treating `,` as a decimal separator (so a trailing `%` is
stripped, never rescaled), with `0.0` when no number is found; the function
is total and never raises. -/
def safe_float_conversion : PyVal → ℚ
  | .bool b => if b then 1 else 0
  | .int n => (n : ℚ)
  | .float q => q
  | .str s => (firstDecimal? (s.data.map commaFix)).getD 0
  | _ => 0

theorem commaFix_isDigit (c : Char) : (commaFix c).isDigit = c.isDigit := by
  by_cases h : c = ',' <;> simp [commaFix, h]

theorem firstDecimal?_of_no_digit :
    ∀ cs : List Char, (∀ c ∈ cs, c.isDigit = false) → firstDecimal? cs = Option.none := by
  intro cs h
  induction cs with
  | nil => rfl
  | cons c rest ih =>
      have hc := h c (List.mem_cons_self c rest)
      simp only [firstDecimal?, hc, Bool.false_eq_true, if_false]
      exact ih (fun d hd => h d (List.mem_cons_of_mem c hd))

/-! ## Observation helpers on reports and criterion results -/

/-- The `status` field of a criterion-result value, when it is a dictionary
carrying one. -/
def statusOfDict : PyVal → Option PyVal
  | .dict kvs => kvs.lookup "status"
  | _ => Option.none

/-- The breakdown entry of a report under criterion key `k`. -/
def bdEntry (resp : Assoc) (k : String) : Option PyVal :=
  match resp.lookup "breakdown" with
  | some (.dict bd) => bd.lookup k
  | _ => Option.none

/-- The status of breakdown criterion `k` of a report. -/
def bdStatus (resp : Assoc) (k : String) : Option PyVal :=
  (bdEntry resp k).bind statusOfDict

/-! ## Structural lemmas -/

theorem passFail_beq (b : Bool) : ((if b then "pass" else "fail") == "pass") = b := by
  cases b <;> rfl

theorem passFail_eq (b : Bool) : (if b then "pass" else "fail") = "pass" ↔ b = true := by
  cases b <;> simp

/-- Every successful run of `manual_eligibility_check` produces the fixed
five-key dictionary, each status `pass` or `fail`, with `overallEligible`
the conjunction of the four non-skill pass conditions. -/
theorem manual_eligibility_check_shape (u e m : Assoc)
    (h : manual_eligibility_check u e = .ok m) :
    ∃ (s1 s2 s3 s4 m1 m2 m3 m4 : String),
      (s1 = "pass" ∨ s1 = "fail") ∧ (s2 = "pass" ∨ s2 = "fail") ∧
      (s3 = "pass" ∨ s3 = "fail") ∧ (s4 = "pass" ∨ s4 = "fail") ∧
      m = [("cgpa", .dict [("status", .str s1), ("message", .str m1)]),
           ("course", .dict [("status", .str s2), ("message", .str m2)]),
           ("batch", .dict [("status", .str s3), ("message", .str m3)]),
           ("backlogs", .dict [("status", .str s4), ("message", .str m4)]),
           ("overallEligible",
             .bool (s1 == "pass" && s2 == "pass" && s3 == "pass" && s4 == "pass"))] := by
  unfold manual_eligibility_check at h
  simp only [bind, Except.bind, pure, Except.pure] at h
  repeat' split at h
  all_goals first
    | (injection h; done)
    | injection h with h
  all_goals refine ⟨_, _, _, _, _, _, _, _, ?_, ?_, ?_, ?_, h.symm⟩ <;> simp

/-- Every successful run of `check_detailed_eligibility` decomposes into its
five stages, and the report is the fixed thirteen-key dictionary built from
them. -/
theorem check_detailed_eligibility_shape (user post : Assoc) (eo so : Option Assoc)
    (resp : Assoc) (h : check_detailed_eligibility user post eo so = .ok resp) :
    ∃ (entries : List PyVal) (crit elig ai skills : Assoc) (recs : List String),
      pyIter (getD user "skills" (.list [])) = .ok entries ∧
      asDict (getD post "criteria" (.dict [])) = .ok crit ∧
      asDict (getD post "eligibility" (.dict [])) = .ok elig ∧
      check_eligibility_with_ai user (combinedEligibility crit elig) eo = .ok ai ∧
      match_user_skills_with_required (entries.filterMap extractSkillName)
        (getD crit "skills" (.list [])) so = .ok skills ∧
      buildRecommendations (getD ai "cgpa" (defaultCheckFailed "CGPA"))
        (getD ai "backlogs" (defaultCheckFailed "Backlogs"))
        (getD ai "course" (defaultCheckFailed "Course"))
        (getD ai "batch" (defaultCheckFailed "Batch"))
        skills (getD crit "skills" (.list []))
        (getD ai "overallEligible" (.bool false))
        (combinedEligibility crit elig) = .ok recs ∧
      resp = [("id", getD user "id" (.str "")), ("name", getD user "name" (.str "")),
        ("course", getD user "course" (.str "")), ("stream", getD user "stream" (.str "")),
        ("batch", getD user "batch" (.str "")), ("institute", getD user "institute" (.str "")),
        ("avg_cgpa", getD user "avg_cgpa" (.float 0)),
        ("activeBacklogs", getD user "activeBacklogs" (.int 0)),
        ("skillsCount", getD user "skillsCount" (.int 0)),
        ("skills", getD user "skills" (.list [])),
        ("isEligible", getD ai "overallEligible" (.bool false)),
        ("breakdown", .dict [("cgpa", getD ai "cgpa" (defaultCheckFailed "CGPA")),
          ("backlogs", getD ai "backlogs" (defaultCheckFailed "Backlogs")),
          ("course", getD ai "course" (defaultCheckFailed "Course")),
          ("batch", getD ai "batch" (defaultCheckFailed "Batch")),
          ("skills", .dict skills)]),
        ("recommendations", .list (recs.map .str))] := by
  unfold check_detailed_eligibility at h
  simp only [bind, Except.bind, pure, Except.pure] at h
  repeat' split at h
  all_goals first
    | (injection h; done)
    | injection h with h
  all_goals exact ⟨_, _, _, _, _, _, by assumption, by assumption, by assumption,
    by assumption, by assumption, by assumption, h.symm⟩

theorem pyEqB_str_str (x y : String) : pyEqB (.str x) (.str y) = (x == y) := by
  by_cases h : x = y <;> simp [pyEqB, asNum?, h]

theorem mapM_asStr_loop : ∀ (bs : List String) (acc : List String),
    List.mapM.loop asStr (bs.map PyVal.str) acc = .ok (acc.reverse ++ bs) := by
  intro bs
  induction bs with
  | nil => intro acc; simp [List.mapM.loop, pure, Except.pure]
  | cons b bs ih =>
      intro acc
      simp [List.mapM.loop, asStr, bind, Except.bind, ih (b :: acc)]

theorem mapM_asStr (bs : List String) : (bs.map PyVal.str).mapM asStr = .ok bs := by
  simpa [List.mapM] using mapM_asStr_loop bs []

theorem pyIn_all_strs (x : String) (bs : List String) :
    pyIn (.str x) (.list (bs.map .str)) = .ok (bs.contains x) := by
  induction bs with
  | nil => rfl
  | cons b bs ih =>
      simp only [pyIn, Except.ok.injEq] at ih
      simp [pyIn, pyEqB_str_str, ih, List.contains_cons]
      by_cases hxb : x = b <;> simp [hxb]

/-- The branch test evaluated on a string stream and a list of string
branches: the sentinel membership is case-sensitive, the stream membership
case-insensitive. -/
theorem coursePassCompute_strs (s : String) (bs : List String) :
    coursePassCompute (.str s) (.list (bs.map .str)) =
      .ok (bs.contains "All" || (bs.map strUpper).contains (strUpper s)) := by
  unfold coursePassCompute
  rw [show (pyIn (.str "All") (.list (bs.map .str))) = .ok (bs.contains "All") from
    pyIn_all_strs "All" bs]
  simp only [bind, Except.bind]
  cases hc : bs.contains "All" with
  | true => simp [pure, Except.pure]
  | false =>
      simp only [Bool.false_eq_true, if_false, asStr, pyIter, mapM_asStr, Bool.false_or,
        bind, Except.bind, pure, Except.pure]

/-! ## Claim C8 -/

/-- C8: the normalization primitive is total and satisfies: already-numeric
input is returned unchanged, a trailing `%` is stripped without rescaling
(`"8.0%" ↦ 8.0`), `,` acts as a decimal separator (`"7,5" ↦ 7.5`), the
first decimal number in arbitrary text is extracted (`"8.5 CGPA" ↦ 8.5`),
and null, empty or digit-free input yields `0.0`. -/
theorem c8_toNumber_contract :
    (∀ q : ℚ, safe_float_conversion (.float q) = q) ∧
    (∀ n : ℤ, safe_float_conversion (.int n) = (n : ℚ)) ∧
    safe_float_conversion (.str "8.0%") = 8 ∧
    safe_float_conversion (.str "60%") = 60 ∧
    safe_float_conversion (.str "7,5") = mkRat 15 2 ∧
    safe_float_conversion (.str "8.5 CGPA") = mkRat 17 2 ∧
    safe_float_conversion .none = 0 ∧
    safe_float_conversion (.str "") = 0 ∧
    safe_float_conversion (.str "invalid") = 0 ∧
    (∀ s : String, (∀ c ∈ s.data, c.isDigit = false) → safe_float_conversion (.str s) = 0) := by
  refine ⟨fun q => rfl, fun n => rfl, by decide, by decide, by decide, by decide,
    rfl, by decide, by decide, ?_⟩
  intro s h
  have hnd : ∀ c ∈ s.data.map commaFix, c.isDigit = false := by
    intro c hc
    obtain ⟨d, hd, rfl⟩ := List.mem_map.1 hc
    rw [commaFix_isDigit]
    exact h d hd
  simp [safe_float_conversion, firstDecimal?_of_no_digit _ hnd]

/-- C8 witness: the hypothesised conjunct applied at the digit-free string
`"no score"`. -/
theorem c8_toNumber_contract_witness : safe_float_conversion (.str "no score") = 0 :=
  c8_toNumber_contract.2.2.2.2.2.2.2.2.2 "no score" (by decide)

/-! ## Claim C7 -/

/-- C7: in the local fallback, the branch criterion passes exactly when
`"All"` is an element of the eligible branches or the stream equals some
branch case-insensitively; `["All"]` passes every stream and `["CSE"]`
fails the stream `"ECE"`. -/
theorem c7_branch_criterion :
    (∀ u e m : Assoc, manual_eligibility_check u e = .ok m →
      (((m.lookup "course").bind statusOfDict = some (.str "pass")) ↔
        coursePassCompute (getD u "stream" (.str "")) (getD e "branches" (.list [])) =
          .ok true)) ∧
    (∀ (s : String) (bs : List String),
      coursePassCompute (.str s) (.list (bs.map .str)) = .ok true ↔
        ("All" ∈ bs ∨ ∃ b ∈ bs, strUpper b = strUpper s)) ∧
    (∀ s : String, coursePassCompute (.str s) (.list [.str "All"]) = .ok true) ∧
    coursePassCompute (.str "ECE") (.list [.str "CSE"]) = .ok false := by
  have hchar : ∀ (s : String) (bs : List String),
      coursePassCompute (.str s) (.list (bs.map .str)) = .ok true ↔
        ("All" ∈ bs ∨ ∃ b ∈ bs, strUpper b = strUpper s) := by
    intro s bs
    rw [coursePassCompute_strs]
    simp only [Except.ok.injEq, Bool.or_eq_true, List.contains, List.elem_eq_mem,
      decide_eq_true_eq, List.mem_map]
  refine ⟨?_, hchar, fun s => (hchar s ["All"]).2 (Or.inl (by decide)), by decide⟩
  intro u e m h
  unfold manual_eligibility_check at h
  simp only [bind, Except.bind, pure, Except.pure] at h
  repeat' split at h
  all_goals first
    | (injection h; done)
    | injection h with h
  all_goals subst h
  all_goals simp_all [statusOfDict, List.lookup, Option.bind]

/-- C7 witness: the hypothesised conjunct applied to a concrete fallback run
with `branches = ["All"]` and stream `"ECE"`. -/
theorem c7_branch_criterion_witness :
    ((([("cgpa", PyVal.dict [("status", .str "pass"),
          ("message", .str "Your CGPA (0.0) meets the minimum requirement (0.0)")]),
        ("course", PyVal.dict [("status", .str "pass"),
          ("message", .str "Your course (ECE) is eligible")]),
        ("batch", PyVal.dict [("status", .str "fail"),
          ("message", .str "Your batch () is not eligible. Eligible batches: ")]),
        ("backlogs", PyVal.dict [("status", .str "pass"),
          ("message", .str "You have 0 active backlog(s), which meets the requirement (â‰¤0)")]),
        ("overallEligible", PyVal.bool false)] : Assoc).lookup "course").bind statusOfDict =
        some (.str "pass")) ↔
      coursePassCompute (getD [("stream", PyVal.str "ECE")] "stream" (.str ""))
        (getD [("branches", PyVal.list [.str "All"])] "branches" (.list [])) = .ok true :=
  c7_branch_criterion.1 [("stream", PyVal.str "ECE")] [("branches", PyVal.list [.str "All"])]
    _ (by decide)

/-! ## Claim C10 -/

/-- C10: the match-any sentinel of the fallback branch check is recognized
only by the exact, case-sensitive string `"All"`: without it in the list the
criterion reduces to case-insensitive membership of the stream, so `["all"]`
and `["ALL"]` do not enable match-any for the stream `"ECE"`. -/
theorem c10_sentinel_exact_case :
    (∀ (s : String) (bs : List String), "All" ∉ bs →
      (coursePassCompute (.str s) (.list (bs.map .str)) = .ok true ↔
        ∃ b ∈ bs, strUpper b = strUpper s)) ∧
    coursePassCompute (.str "ECE") (.list [.str "all"]) = .ok false ∧
    coursePassCompute (.str "ECE") (.list [.str "ALL"]) = .ok false := by
  refine ⟨?_, by decide, by decide⟩
  intro s bs hAll
  rw [coursePassCompute_strs]
  simp only [Except.ok.injEq, Bool.or_eq_true, List.contains, List.elem_eq_mem,
    decide_eq_true_eq, List.mem_map]
  constructor
  · rintro (h | h)
    · exact absurd h hAll
    · exact h
  · intro h
    exact Or.inr h

/-- C10 witness: without the sentinel, the stream still matches its own
branch case-insensitively (`["CSE"]` accepts `"cse"`). -/
theorem c10_sentinel_exact_case_witness :
    coursePassCompute (.str "cse") (.list [.str "CSE"]) = .ok true :=
  (c10_sentinel_exact_case.1 "cse" ["CSE"] (by decide)).2 ⟨"CSE", by decide, by decide⟩

/-! ## Claim C3 -/

/-- C3 counterexample: an oracle response that does not partition the
required skills (`matched = ["Z"]`, `missing = []` for
`required = ["Python"]`) is accepted verbatim — the union misses
`"Python"`, the status is even computed as `pass`, and the deterministic
fallback (which would return `fail` with `missing = ["Python"]`) is not
used. -/
theorem c3_oracle_accepted_without_partition_check :
    match_user_skills_with_required [.str "Java"] (.list [.str "Python"])
        (some [("matchedSkills", .list [.str "Z"]), ("missingSkills", .list [])]) =
      .ok [("status", .str "pass"), ("message", .str "All 1 required skills matched"),
           ("matchedSkills", .list [.str "Z"]), ("missingSkills", .list [])] ∧
    (PyVal.str "Python" ∉ ([.str "Z"] ++ ([] : List PyVal))) ∧
    fallback_skills_matching ["Java"] ["Python"] =
      [("status", .str "fail"), ("message", .str "None of the 1 required skills matched"),
       ("matchedSkills", .list []), ("missingSkills", .list [.str "Python"])] :=
  ⟨by decide, by decide, by decide⟩

/-- C3 (amended): the deterministic fallback matcher always partitions the
required skills (`matched ∪ missing = required` and
`matched ∩ missing = ∅`), while an oracle response whose text parses as a
JSON object is accepted with its `matchedSkills`/`missingSkills` taken
as-is, with no partition validation — the fallback is reached only on
transport/parse failure (or a `len` failure on the parsed fields). -/
theorem c3_skills_partition :
    (∀ (us rs : List String) (ms mss : List PyVal),
      (fallback_skills_matching us rs).lookup "matchedSkills" = some (.list ms) →
      (fallback_skills_matching us rs).lookup "missingSkills" = some (.list mss) →
      (∀ v, (v ∈ ms ∨ v ∈ mss) ↔ v ∈ rs.map PyVal.str) ∧
      (∀ v, ¬(v ∈ ms ∧ v ∈ mss))) ∧
    (∀ (us : List PyVal) (rv : PyVal) (r : Assoc) (ss : List String) (nm nr : ℕ),
      us ≠ [] → pyTruthy rv = true →
      us.mapM asStr = .ok ss →
      pyLen (getD r "matchedSkills" (.list [])) = .ok nm →
      pyLen rv = .ok nr →
      match_user_skills_with_required us rv (some r) =
        .ok [("status", .str (statusOf nm nr)), ("message", .str (messageOf nm nr)),
             ("matchedSkills", getD r "matchedSkills" (.list [])),
             ("missingSkills", getD r "missingSkills" (.list []))]) := by
  constructor
  · intro us rs ms mss hm hms
    simp only [fallback_skills_matching, List.lookup, Option.some.injEq, PyVal.list.injEq,
      show (("matchedSkills" == "status") = false) from rfl,
      show (("matchedSkills" == "message") = false) from rfl,
      show (("matchedSkills" == "matchedSkills") = true) from rfl,
      show (("missingSkills" == "status") = false) from rfl,
      show (("missingSkills" == "message") = false) from rfl,
      show (("missingSkills" == "matchedSkills") = false) from rfl,
      show (("missingSkills" == "missingSkills") = true) from rfl] at hm hms
    subst hm
    subst hms
    constructor
    · intro v
      constructor
      · rintro (hv | hv) <;>
          · obtain ⟨b, hb, rfl⟩ := List.mem_map.1 hv
            exact List.mem_map.2 ⟨b, (List.mem_filter.1 hb).1, rfl⟩
      · intro hv
        obtain ⟨b, hb, rfl⟩ := List.mem_map.1 hv
        by_cases hc : reqMatches (us.map skillLower) (skillLower b) = true
        · exact Or.inl (List.mem_map.2 ⟨b, List.mem_filter.2 ⟨hb, by simp [hc]⟩, rfl⟩)
        · exact Or.inr (List.mem_map.2 ⟨b, List.mem_filter.2 ⟨hb, by simp [hc]⟩, rfl⟩)
    · rintro v ⟨h1, h2⟩
      obtain ⟨b, hb, rfl⟩ := List.mem_map.1 h1
      obtain ⟨b', hb', hbb⟩ := List.mem_map.1 h2
      have hb2 : b' = b := by injection hbb
      subst hb2
      have hmt := (List.mem_filter.1 hb).2
      have hmf := (List.mem_filter.1 hb').2
      simp at hmt hmf
      exact absurd hmt (by simp [hmf])
  · intro us rv r ss nm nr hne htr hss hm hr
    cases us with
    | nil => exact absurd rfl hne
    | cons u0 us' =>
        simp only [match_user_skills_with_required, htr, Bool.not_true, Bool.false_eq_true,
          if_false, List.isEmpty_cons, bind, Except.bind, hss, hm, hr, pure, Except.pure]

/-- C3 witness: the partition conjunct applied to the concrete fallback run
`user = ["Java"], required = ["Python"]`. -/
theorem c3_skills_partition_witness :
    (∀ v, (v ∈ ([] : List PyVal) ∨ v ∈ [PyVal.str "Python"]) ↔
      v ∈ (["Python"].map PyVal.str)) ∧
    (∀ v, ¬(v ∈ ([] : List PyVal) ∧ v ∈ [PyVal.str "Python"])) :=
  c3_skills_partition.1 ["Java"] ["Python"] [] [.str "Python"] (by decide) (by decide)

/-! ## Claim C2 -/

/-- C2: on the repository's own test payload (`src/test_eligibility_fixes.py`,
string CGPA `"8.5%"`), the local fallback raises: `manual_eligibility_check`
compares the raw string `avg_cgpa` against the `float`-cast minimum with a
bare `>=`, so the whole evaluation errors instead of producing a report.
The totality the claim (and the repository's own test) require would need
the missing `safe_float_conversion` normalizer. -/
theorem c2_fallback_raises_on_string_cgpa :
    check_detailed_eligibility
      [("id", .str "test123"), ("name", .str "Test Student"),
       ("course", .str "B.Tech"), ("stream", .str "CSE"), ("batch", .str "2025"),
       ("institute", .str "Test Institute"), ("avg_cgpa", .str "8.5%"),
       ("activeBacklogs", .str "0"), ("skillsCount", .int 3),
       ("skills", .list [.str "Python", .str "JavaScript", .str "React"])]
      [("criteria", .dict [("cgpa", .str "7.0%"), ("backlogs", .str "0"),
          ("skills", .list [.str "Python", .str "JavaScript", .str "Java"])]),
       ("eligibility", .dict [("minCGPA", .str "7.5"),
          ("branches", .list [.str "CSE", .str "IT"]),
          ("batch", .list [.str "2025", .str "2026"])])]
      Option.none Option.none =
      .error (.typeError "unsupported operand types for comparison") := by decide

/-! ## Claim C1 -/

/-- C1 (amended): when the oracle bundle is rejected (fallback path),
`isEligible` is true exactly when the four non-skill breakdown statuses are
all `pass`; and in every case the skills matcher's outcome never influences
`isEligible`.  (When an oracle response is accepted, `isEligible` is its
`overallEligible` field, which need not agree with the breakdown — see the
counterexample.) -/
theorem c1_verdict_conjunction :
    (∀ (user post : Assoc) (so : Option Assoc) (resp : Assoc),
      check_detailed_eligibility user post Option.none so = .ok resp →
      (resp.lookup "isEligible" = some (.bool true) ↔
        (bdStatus resp "cgpa" = some (.str "pass") ∧
         bdStatus resp "course" = some (.str "pass") ∧
         bdStatus resp "batch" = some (.str "pass") ∧
         bdStatus resp "backlogs" = some (.str "pass")))) ∧
    (∀ (user post : Assoc) (eo so1 so2 : Option Assoc) (r1 r2 : Assoc),
      check_detailed_eligibility user post eo so1 = .ok r1 →
      check_detailed_eligibility user post eo so2 = .ok r2 →
      r1.lookup "isEligible" = r2.lookup "isEligible") := by
  constructor
  · intro user post so resp h
    obtain ⟨entries, crit, elig, ai, skills, recs, h1, h2, h3, h4, h5, h6, hresp⟩ :=
      check_detailed_eligibility_shape user post Option.none so resp h
    obtain ⟨s1, s2, s3, s4, m1, m2, m3, m4, hp1, hp2, hp3, hp4, hai⟩ :=
      manual_eligibility_check_shape _ _ _ h4
    subst hai
    subst hresp
    simp [List.lookup, bdStatus, bdEntry, statusOfDict, getD]
    tauto
  · intro user post eo so1 so2 r1 r2 ha hb
    obtain ⟨en1, crit1, elig1, ai1, sk1, rec1, a1, a2, a3, a4, a5, a6, aresp⟩ :=
      check_detailed_eligibility_shape user post eo so1 r1 ha
    obtain ⟨en2, crit2, elig2, ai2, sk2, rec2, b1, b2, b3, b4, b5, b6, bresp⟩ :=
      check_detailed_eligibility_shape user post eo so2 r2 hb
    have hcrit : crit1 = crit2 := by
      rw [a2] at b2
      injection b2
    have helig : elig1 = elig2 := by
      rw [a3] at b3
      injection b3
    subst hcrit
    subst helig
    have hai : ai1 = ai2 := by
      rw [a4] at b4
      injection b4
    subst hai
    subst aresp
    subst bresp
    rfl

/-- An accepted oracle object whose per-criterion statuses contradict its own
`overallEligible` field. -/
def c1OracleResp : Assoc :=
  [("cgpa", .dict [("status", .str "fail"), ("message", .str "low")]),
   ("course", .dict [("status", .str "pass"), ("message", .str "ok")]),
   ("batch", .dict [("status", .str "pass"), ("message", .str "ok")]),
   ("backlogs", .dict [("status", .str "pass"), ("message", .str "ok")]),
   ("overallEligible", .bool true)]

/-- The report produced from `c1OracleResp` on the empty payload. -/
def c1Report : Assoc :=
  [("id", .str ""), ("name", .str ""), ("course", .str ""), ("stream", .str ""),
   ("batch", .str ""), ("institute", .str ""), ("avg_cgpa", .float 0),
   ("activeBacklogs", .int 0), ("skillsCount", .int 0), ("skills", .list []),
   ("isEligible", .bool true),
   ("breakdown", .dict
     [("cgpa", .dict [("status", .str "fail"), ("message", .str "low")]),
      ("backlogs", .dict [("status", .str "pass"), ("message", .str "ok")]),
      ("course", .dict [("status", .str "pass"), ("message", .str "ok")]),
      ("batch", .dict [("status", .str "pass"), ("message", .str "ok")]),
      ("skills", .dict [("status", .str "pass"),
        ("message", .str "No specific skills required"),
        ("matchedSkills", .list []), ("missingSkills", .list [])])]),
   ("recommendations", .list
     [.str "Improve your CGPA to at least 0.0",
      .str "You are eligible! Prepare well for the selection process",
      .str "Review the job description and company information thoroughly",
      .str "Your skills align well with the requirements"])]

/-- C1 counterexample: with an accepted oracle response whose
`overallEligible` is `true` while its `cgpa` status is `fail`, the report
has skills `pass`, cgpa `fail`, and `isEligible = true` — the claimed
equivalence between `isEligible` and the four non-skill statuses fails, and
skills `pass` with cgpa `fail` does not force `isEligible = false`. -/
theorem c1_oracle_verdict_not_conjunction :
    check_detailed_eligibility [] [] (some c1OracleResp) Option.none = .ok c1Report ∧
    bdStatus c1Report "cgpa" = some (.str "fail") ∧
    bdStatus c1Report "skills" = some (.str "pass") ∧
    c1Report.lookup "isEligible" = some (.bool true) :=
  ⟨by decide, by decide, by decide, by decide⟩

/-- The candidate of the concrete fallback run used as C1's witness. -/
def c1FallbackUser : Assoc :=
  [("id", .str "u1"), ("name", .str "A"), ("course", .str "B.Tech"),
   ("stream", .str "CSE"), ("batch", .str "2026"), ("institute", .str "I"),
   ("avg_cgpa", .float (mkRat 17 2)), ("activeBacklogs", .int 0),
   ("skillsCount", .int 1), ("skills", .list [.str "Java"])]

/-- The post of the concrete fallback run used as C1's witness. -/
def c1FallbackPost : Assoc :=
  [("criteria", .dict [("backlogs", .int 0), ("skills", .list [.str "Python"])]),
   ("eligibility", .dict [("minCGPA", .float 7), ("branches", .list [.str "All"]),
     ("batch", .list [.str "2026"])])]

/-- The report of the concrete fallback run used as C1's witness. -/
def c1FallbackReport : Assoc :=
  [("id", .str "u1"), ("name", .str "A"), ("course", .str "B.Tech"),
   ("stream", .str "CSE"), ("batch", .str "2026"), ("institute", .str "I"),
   ("avg_cgpa", .float (mkRat 17 2)), ("activeBacklogs", .int 0),
   ("skillsCount", .int 1), ("skills", .list [.str "Java"]),
   ("isEligible", .bool true),
   ("breakdown", .dict
     [("cgpa", .dict [("status", .str "pass"),
        ("message", .str "Your CGPA (8.5) meets the minimum requirement (7.0)")]),
      ("backlogs", .dict [("status", .str "pass"),
        ("message", .str "You have 0 active backlog(s), which meets the requirement (â‰¤0)")]),
      ("course", .dict [("status", .str "pass"),
        ("message", .str "Your course (CSE) is eligible")]),
      ("batch", .dict [("status", .str "pass"),
        ("message", .str "Your batch (2026) is eligible")]),
      ("skills", .dict [("status", .str "fail"),
        ("message", .str "None of the 1 required skills matched"),
        ("matchedSkills", .list []), ("missingSkills", .list [.str "Python"])])]),
   ("recommendations", .list
     [.str "Consider developing skills in: Python to strengthen your profile",
      .str "You are eligible! Prepare well for the selection process",
      .str "Review the job description and company information thoroughly"])]

/-- C1 witness: the fallback conjunct applied to a concrete run in which all
four criteria pass. -/
theorem c1_verdict_conjunction_witness :
    c1FallbackReport.lookup "isEligible" = some (.bool true) ↔
      (bdStatus c1FallbackReport "cgpa" = some (.str "pass") ∧
       bdStatus c1FallbackReport "course" = some (.str "pass") ∧
       bdStatus c1FallbackReport "batch" = some (.str "pass") ∧
       bdStatus c1FallbackReport "backlogs" = some (.str "pass")) :=
  c1_verdict_conjunction.1 c1FallbackUser c1FallbackPost Option.none c1FallbackReport
    (by decide)

/-! ## Claim C4 -/

/-- An oracle object carrying only the `cgpa` key. -/
def c4OracleResp : Assoc := [("cgpa", .dict [("status", .str "pass"), ("message", .str "ok")])]

/-- A candidate whose stream passes the local branch rule. -/
def c4User : Assoc := [("stream", .str "CSE")]

/-- A post whose eligibility lists the candidate's own branch. -/
def c4Post : Assoc :=
  [("eligibility", .dict [("branches", .list [.str "CSE"]),
     ("batch", .list [.str "2026"])])]

/-- C4 counterexample: a parsed oracle object missing `course`, `batch`,
`backlogs` and `overallEligible` is not discarded — its `cgpa` entry enters
the breakdown verbatim, the missing criteria become fixed `... check failed`
placeholders instead of the locally recomputed results (the local rule
passes the course criterion here), and `isEligible` defaults to `false`
rather than the local verdict. -/
theorem c4_partial_oracle_accepted :
    ((check_detailed_eligibility c4User c4Post (some c4OracleResp) Option.none).toOption.bind
        (fun resp => bdEntry resp "cgpa")) =
      some (.dict [("status", .str "pass"), ("message", .str "ok")]) ∧
    ((check_detailed_eligibility c4User c4Post (some c4OracleResp) Option.none).toOption.bind
        (fun resp => bdEntry resp "course")) = some (defaultCheckFailed "Course") ∧
    ((manual_eligibility_check c4User
        (combinedEligibility [] [("branches", .list [.str "CSE"]),
          ("batch", .list [.str "2026"])])).toOption.bind
        (fun m => (m.lookup "course").bind statusOfDict)) = some (.str "pass") ∧
    ((check_detailed_eligibility c4User c4Post (some c4OracleResp) Option.none).toOption.bind
        (fun resp => resp.lookup "isEligible")) = some (.bool false) :=
  ⟨by decide, by decide, by decide, by decide⟩

/-- C4 (amended): only transport errors and JSON-extraction/parse failures
discard the oracle bundle and trigger the full local recomputation; a
successfully parsed object is accepted as-is, key-complete or not, with
absent criterion keys replaced by fixed `... check failed` placeholders and
an absent `overallEligible` defaulting to `false`. -/
theorem c4_oracle_bundle_handling :
    (∀ (u p : Assoc) (so : Option Assoc) (resp : Assoc),
      check_detailed_eligibility u p Option.none so = .ok resp →
      ∃ crit elig m,
        asDict (getD p "criteria" (.dict [])) = .ok crit ∧
        asDict (getD p "eligibility" (.dict [])) = .ok elig ∧
        manual_eligibility_check u (combinedEligibility crit elig) = .ok m ∧
        bdEntry resp "cgpa" = m.lookup "cgpa" ∧
        bdEntry resp "course" = m.lookup "course" ∧
        bdEntry resp "batch" = m.lookup "batch" ∧
        bdEntry resp "backlogs" = m.lookup "backlogs" ∧
        resp.lookup "isEligible" = m.lookup "overallEligible") ∧
    (∀ (u p r : Assoc) (so : Option Assoc) (resp : Assoc),
      check_detailed_eligibility u p (some r) so = .ok resp →
      bdEntry resp "cgpa" = some (getD r "cgpa" (defaultCheckFailed "CGPA")) ∧
      bdEntry resp "backlogs" = some (getD r "backlogs" (defaultCheckFailed "Backlogs")) ∧
      bdEntry resp "course" = some (getD r "course" (defaultCheckFailed "Course")) ∧
      bdEntry resp "batch" = some (getD r "batch" (defaultCheckFailed "Batch")) ∧
      resp.lookup "isEligible" = some (getD r "overallEligible" (.bool false))) := by
  constructor
  · intro u p so resp h
    obtain ⟨entries, crit, elig, ai, skills, recs, h1, h2, h3, h4, h5, h6, hresp⟩ :=
      check_detailed_eligibility_shape u p Option.none so resp h
    obtain ⟨s1, s2, s3, s4, m1, m2, m3, m4, hp1, hp2, hp3, hp4, hai⟩ :=
      manual_eligibility_check_shape _ _ _ h4
    subst hai
    subst hresp
    exact ⟨crit, elig, _, h2, h3, h4, by simp [bdEntry, List.lookup, getD],
      by simp [bdEntry, List.lookup, getD], by simp [bdEntry, List.lookup, getD],
      by simp [bdEntry, List.lookup, getD], by simp [List.lookup, getD]⟩
  · intro u p r so resp h
    obtain ⟨entries, crit, elig, ai, skills, recs, h1, h2, h3, h4, h5, h6, hresp⟩ :=
      check_detailed_eligibility_shape u p (some r) so resp h
    have hai : r = ai := by
      simpa [check_eligibility_with_ai] using h4
    subst hai
    subst hresp
    exact ⟨by simp [bdEntry, List.lookup], by simp [bdEntry, List.lookup],
      by simp [bdEntry, List.lookup], by simp [bdEntry, List.lookup],
      by simp [List.lookup]⟩

/-- C4 witness: the fallback conjunct applied to the concrete fallback run of
`c1FallbackUser`/`c1FallbackPost`. -/
theorem c4_oracle_bundle_handling_witness :
    ∃ crit elig m,
      asDict (getD c1FallbackPost "criteria" (.dict [])) = .ok crit ∧
      asDict (getD c1FallbackPost "eligibility" (.dict [])) = .ok elig ∧
      manual_eligibility_check c1FallbackUser (combinedEligibility crit elig) = .ok m ∧
      bdEntry c1FallbackReport "cgpa" = m.lookup "cgpa" ∧
      bdEntry c1FallbackReport "course" = m.lookup "course" ∧
      bdEntry c1FallbackReport "batch" = m.lookup "batch" ∧
      bdEntry c1FallbackReport "backlogs" = m.lookup "backlogs" ∧
      c1FallbackReport.lookup "isEligible" = m.lookup "overallEligible" :=
  c4_oracle_bundle_handling.1 c1FallbackUser c1FallbackPost Option.none c1FallbackReport
    (by decide)

/-! ## Claim C5 -/

/-- C5: the merged criteria take `minCGPA` from `post.eligibility` with
priority (falling back to `criteria.cgpa`, then `0.0`, when absent),
`branches` and `batch` exclusively from `post.eligibility`, and `backlogs`
(default `0`) exclusively from `post.criteria`; the required skills are
sourced only from `post.criteria`, so two posts sharing `criteria` produce
the same skills breakdown. -/
theorem c5_criteria_merge_precedence :
    (∀ (crit elig : Assoc) (v : PyVal), elig.lookup "minCGPA" = some v →
      (combinedEligibility crit elig).lookup "minCGPA" = some v) ∧
    (∀ crit elig : Assoc, elig.lookup "minCGPA" = Option.none →
      (combinedEligibility crit elig).lookup "minCGPA" =
        some (getD crit "cgpa" (.float 0))) ∧
    (∀ crit elig : Assoc,
      (combinedEligibility crit elig).lookup "branches" =
        some (getD elig "branches" (.list [])) ∧
      (combinedEligibility crit elig).lookup "batch" =
        some (getD elig "batch" (.list [])) ∧
      (combinedEligibility crit elig).lookup "backlogs" =
        some (getD crit "backlogs" (.int 0))) ∧
    (∀ (u p1 p2 : Assoc) (eo so : Option Assoc) (r1 r2 : Assoc),
      getD p1 "criteria" (.dict []) = getD p2 "criteria" (.dict []) →
      check_detailed_eligibility u p1 eo so = .ok r1 →
      check_detailed_eligibility u p2 eo so = .ok r2 →
      bdEntry r1 "skills" = bdEntry r2 "skills") := by
  refine ⟨?_, ?_, ?_, ?_⟩
  · intro crit elig v h
    simp [combinedEligibility, List.lookup, getD, h]
  · intro crit elig h
    simp [combinedEligibility, List.lookup, getD, h]
  · intro crit elig
    refine ⟨?_, ?_, ?_⟩ <;> simp [combinedEligibility, List.lookup]
  · intro u p1 p2 eo so r1 r2 hc ha hb
    obtain ⟨en1, crit1, elig1, ai1, sk1, rec1, a1, a2, a3, a4, a5, a6, aresp⟩ :=
      check_detailed_eligibility_shape u p1 eo so r1 ha
    obtain ⟨en2, crit2, elig2, ai2, sk2, rec2, b1, b2, b3, b4, b5, b6, bresp⟩ :=
      check_detailed_eligibility_shape u p2 eo so r2 hb
    have hen : en1 = en2 := by
      rw [a1] at b1
      injection b1
    have hcrit : crit1 = crit2 := by
      rw [hc] at a2
      rw [a2] at b2
      injection b2
    subst hen
    subst hcrit
    have hsk : sk1 = sk2 := by
      rw [a5] at b5
      injection b5
    subst hsk
    subst aresp
    subst bresp
    simp [bdEntry, List.lookup]

/-- C5 witness: the precedence conjunct applied at a concrete pair where
both `eligibility.minCGPA` and `criteria.cgpa` are present. -/
theorem c5_criteria_merge_precedence_witness :
    (combinedEligibility [("cgpa", PyVal.float 7)]
        [("minCGPA", PyVal.float 8)]).lookup "minCGPA" = some (.float 8) :=
  c5_criteria_merge_precedence.1 [("cgpa", PyVal.float 7)] [("minCGPA", PyVal.float 8)]
    (.float 8) (by decide)

/-! ## Claim C9 -/

/-- C9: the candidate skill list given to the matcher keeps exactly the
string entries and the `"name"` values of dictionary entries carrying one
(`extractSkillName`); every other entry is dropped, a list with no such
entry is matched as if the candidate had no skills, and the report echoes
the original `skills` value unchanged. -/
theorem c9_skill_extraction :
    (∀ (u p : Assoc) (eo so : Option Assoc) (resp : Assoc) (entries : List PyVal),
      getD u "skills" (.list []) = .list entries →
      check_detailed_eligibility u p eo so = .ok resp →
      resp.lookup "skills" = some (.list entries) ∧
      ∃ crit skills,
        asDict (getD p "criteria" (.dict [])) = .ok crit ∧
        match_user_skills_with_required (entries.filterMap extractSkillName)
          (getD crit "skills" (.list [])) so = .ok skills ∧
        bdEntry resp "skills" = some (.dict skills)) ∧
    (∀ s, extractSkillName (.str s) = some (.str s)) ∧
    (∀ kvs, extractSkillName (.dict kvs) = kvs.lookup "name") ∧
    (extractSkillName .none = Option.none ∧
     (∀ b, extractSkillName (.bool b) = Option.none) ∧
     (∀ n, extractSkillName (.int n) = Option.none) ∧
     (∀ q, extractSkillName (.float q) = Option.none) ∧
     (∀ xs, extractSkillName (.list xs) = Option.none)) ∧
    (∀ entries : List PyVal, (∀ e ∈ entries, extractSkillName e = Option.none) →
      entries.filterMap extractSkillName = []) := by
  refine ⟨?_, fun s => rfl, fun kvs => rfl,
    ⟨rfl, fun b => rfl, fun n => rfl, fun q => rfl, fun xs => rfl⟩, ?_⟩
  · intro u p eo so resp entries hsk h
    obtain ⟨en, crit, elig, ai, skills, recs, h1, h2, h3, h4, h5, h6, hresp⟩ :=
      check_detailed_eligibility_shape u p eo so resp h
    rw [hsk] at h1
    have hen : en = entries := by
      simpa [pyIter] using h1.symm
    subst hen
    subst hresp
    exact ⟨by simp [List.lookup, hsk], crit, skills, h2, h5, by simp [bdEntry, List.lookup]⟩
  · intro entries h
    exact List.filterMap_eq_nil_iff.2 h

/-- C9 witness: the end-to-end conjunct applied to the concrete fallback run
whose skills list is `[.str "Java"]`. -/
theorem c9_skill_extraction_witness :
    c1FallbackReport.lookup "skills" = some (.list [.str "Java"]) ∧
    ∃ crit skills,
      asDict (getD c1FallbackPost "criteria" (.dict [])) = .ok crit ∧
      match_user_skills_with_required ([PyVal.str "Java"].filterMap extractSkillName)
        (getD crit "skills" (.list [])) Option.none = .ok skills ∧
      bdEntry c1FallbackReport "skills" = some (.dict skills) :=
  c9_skill_extraction.1 c1FallbackUser c1FallbackPost Option.none Option.none
    c1FallbackReport [.str "Java"] (by decide) (by decide)

/-! ## Claim C6 -/

theorem pyEqB_str_right (v : PyVal) (s : String) :
    pyEqB v (.str s) = decide (v = .str s) := by
  cases v <;> rfl

/-- C6 counterexample: an eligible report whose skills status is `fail`
(reachable deterministically: all four criteria pass, one required skill,
no match) closes with only the two fixed affirmative statements — there is
no third, so the claimed closing block of three affirmative statements does
not exist for this input. -/
theorem c6_closing_block_of_two :
    check_detailed_eligibility c1FallbackUser c1FallbackPost Option.none Option.none =
      .ok c1FallbackReport ∧
    c1FallbackReport.lookup "isEligible" = some (.bool true) ∧
    bdStatus c1FallbackReport "skills" = some (.str "fail") ∧
    c1FallbackReport.lookup "recommendations" = some (.list
      [.str "Consider developing skills in: Python to strengthen your profile",
       .str "You are eligible! Prepare well for the selection process",
       .str "Review the job description and company information thoroughly"]) :=
  ⟨by decide, by decide, by decide, by decide⟩

/-- Decomposition of a successful recommendation build into its six blocks,
in order. -/
theorem buildRecommendations_shape (cgpaB backlogsB courseB batchB : PyVal)
    (skills : Assoc) (req elig : PyVal) (comb : Assoc) (recs : List String)
    (h : buildRecommendations cgpaB backlogsB courseB batchB skills req elig comb = .ok recs) :
    ∃ r1 r2 r3 r4 r5 r6,
      recCgpa cgpaB comb = .ok r1 ∧ recBacklogs backlogsB = .ok r2 ∧
      recCourse courseB comb = .ok r3 ∧ recBatch batchB comb = .ok r4 ∧
      recSkills skills req = .ok r5 ∧ recClosing elig skills = .ok r6 ∧
      recs = r1 ++ r2 ++ r3 ++ r4 ++ r5 ++ r6 := by
  unfold buildRecommendations at h
  simp only [bind, Except.bind, pure, Except.pure] at h
  repeat' split at h
  all_goals first
    | (injection h; done)
    | injection h with h
  all_goals exact ⟨_, _, _, _, _, _, by assumption, by assumption, by assumption,
    by assumption, by assumption, by assumption, h.symm⟩

theorem recCgpa_char (cgpaB : PyVal) (comb : Assoc) (sC : PyVal)
    (h : pySub cgpaB "status" = .ok sC) :
    recCgpa cgpaB comb = .ok (if sC = .str "fail" then
      ["Improve your CGPA to at least " ++ pyStrOf (getD comb "minCGPA" (.float 0))]
    else []) := by
  unfold recCgpa
  simp only [bind, Except.bind, h, pyEqB_str_right]
  by_cases hc : sC = .str "fail" <;> simp [hc, pure, Except.pure]

theorem recBacklogs_char (backlogsB : PyVal) (sB : PyVal)
    (h : pySub backlogsB "status" = .ok sB) :
    recBacklogs backlogsB = .ok (if sB = .str "fail" then
      ["Clear your active backlogs before applying"] else []) := by
  unfold recBacklogs
  simp only [bind, Except.bind, h, pyEqB_str_right]
  by_cases hc : sB = .str "fail" <;> simp [hc, pure, Except.pure]

theorem recCourse_char (courseB : PyVal) (comb : Assoc) (sCo : PyVal) (r : List String)
    (hs : pySub courseB "status" = .ok sCo) (h : recCourse courseB comb = .ok r) :
    ∃ m, r = if sCo = .str "fail" then [m] else [] := by
  unfold recCourse at h
  simp only [bind, Except.bind, hs, pyEqB_str_right] at h
  by_cases hc : sCo = .str "fail"
  · simp only [hc, decide_True, if_true] at h
    cases hj : pyJoin ", " (getD comb "branches" (.list [])) with
    | error e => rw [hj] at h; simp at h
    | ok j =>
        rw [hj] at h
        simp only [pure, Except.pure, Except.ok.injEq] at h
        exact ⟨"This opportunity is only for " ++ j ++ " branches", by simp [hc, h.symm]⟩
  · simp only [hc, decide_False, Bool.false_eq_true, if_false, pure, Except.pure,
      Except.ok.injEq] at h
    exact ⟨"", by simp [hc, h.symm]⟩

theorem recBatch_char (batchB : PyVal) (comb : Assoc) (sBa : PyVal) (r : List String)
    (hs : pySub batchB "status" = .ok sBa) (h : recBatch batchB comb = .ok r) :
    ∃ m, r = if sBa = .str "fail" then [m] else [] := by
  unfold recBatch at h
  simp only [bind, Except.bind, hs, pyEqB_str_right] at h
  by_cases hc : sBa = .str "fail"
  · simp only [hc, decide_True, if_true] at h
    cases hj : pyJoinStrMap ", " (getD comb "batch" (.list [])) with
    | error e => rw [hj] at h; simp at h
    | ok j =>
        rw [hj] at h
        simp only [pure, Except.pure, Except.ok.injEq] at h
        exact ⟨"This opportunity is only for " ++ j ++ " batch", by simp [hc, h.symm]⟩
  · simp only [hc, decide_False, Bool.false_eq_true, if_false, pure, Except.pure,
      Except.ok.injEq] at h
    exact ⟨"", by simp [hc, h.symm]⟩

theorem recSkills_char (skills : Assoc) (req : PyVal) (sSk : PyVal) (r : List String)
    (hs : skills.lookup "status" = some sSk) (h : recSkills skills req = .ok r) :
    ∃ m, r = if sSk = .str "fail" ∧ pyTruthy req = true then [m]
      else if sSk = .str "partial" ∧
        pyTruthy (getD skills "missingSkills" (.list [])) = true then [m]
      else [] := by
  unfold recSkills at h
  simp only [bind, Except.bind, pySub, hs, pyEqB_str_right] at h
  by_cases hF : sSk = .str "fail"
  · by_cases hT : pyTruthy req = true
    · simp only [hF, hT, decide_True, Bool.and_true, Bool.true_and, if_true] at h
      cases hj : pyJoin ", " (getD skills "missingSkills" (.list [])) with
      | error e => rw [hj] at h; simp at h
      | ok j =>
          rw [hj] at h
          simp only [pure, Except.pure, Except.ok.injEq] at h
          exact ⟨"Consider developing skills in: " ++ j ++ " to strengthen your profile",
            by simp [hF, hT, h.symm]⟩
    · have hT2 : pyTruthy req = false := by
        cases htr : pyTruthy req
        · rfl
        · exact absurd htr hT
      have hnp : ((PyVal.str "fail" : PyVal) = .str "partial") = False := by simp
      simp only [hF, hT2, Bool.and_false, Bool.false_eq_true, if_false, hnp,
        decide_False, pure, Except.pure, Except.ok.injEq] at h
      exact ⟨"", by simp [hF, hT2, h.symm]⟩
  · have hdF : decide (sSk = .str "fail") = false := decide_eq_false hF
    simp only [hdF, Bool.false_and, Bool.false_eq_true, if_false] at h
    by_cases hP : sSk = .str "partial"
    · simp only [hP, decide_True, if_true] at h
      by_cases hM : pyTruthy (getD skills "missingSkills" (.list [])) = true
      · simp only [hM, if_true] at h
        cases hj : pyJoin ", " (getD skills "missingSkills" (.list [])) with
        | error e => rw [hj] at h; simp at h
        | ok j =>
            rw [hj] at h
            simp only [pure, Except.pure, Except.ok.injEq] at h
            exact ⟨"Consider developing additional skills in: " ++ j,
              by simp [hP, hM, hF, h.symm]⟩
      · have hM2 : pyTruthy (getD skills "missingSkills" (.list [])) = false := by
          cases hmm : pyTruthy (getD skills "missingSkills" (.list []))
          · rfl
          · exact absurd hmm hM
        simp only [hM2, Bool.false_eq_true, if_false, pure, Except.pure,
          Except.ok.injEq] at h
        exact ⟨"", by simp [hP, hM2, hF, h.symm]⟩
    · have hdP : decide (sSk = .str "partial") = false := decide_eq_false hP
      simp only [hdP, Bool.false_eq_true, if_false, pure, Except.pure,
        Except.ok.injEq] at h
      exact ⟨"", by simp [hP, hF, h.symm]⟩

theorem recClosing_char (eligv : PyVal) (skills : Assoc) (sSk : PyVal) (r : List String)
    (hs : skills.lookup "status" = some sSk) (h : recClosing eligv skills = .ok r) :
    r = if pyTruthy eligv = true then
      ["You are eligible! Prepare well for the selection process",
       "Review the job description and company information thoroughly"]
        ++ (if sSk = .str "pass" then ["Your skills align well with the requirements"]
            else if sSk = .str "partial" then
              ["You have some of the desired skills - highlight them in your application"]
            else [])
    else ["Focus on meeting the basic eligibility criteria before applying"] := by
  unfold recClosing at h
  by_cases hE : pyTruthy eligv = true
  · simp only [hE, if_true, bind, Except.bind, pySub, hs, pyEqB_str_right, pure,
      Except.pure, Except.ok.injEq] at h
    simp only [hE, if_true]
    by_cases hP : sSk = .str "pass"
    · simp only [hP, decide_True, if_true] at h ⊢
      exact h.symm
    · have hdP : decide (sSk = .str "pass") = false := decide_eq_false hP
      simp only [hdP, Bool.false_eq_true, if_false, hP] at h ⊢
      by_cases hQ : sSk = .str "partial"
      · simp only [hQ, decide_True, if_true] at h ⊢
        exact h.symm
      · have hdQ : decide (sSk = .str "partial") = false := decide_eq_false hQ
        simp only [hdQ, Bool.false_eq_true, if_false, hQ] at h ⊢
        exact h.symm
  · have hE2 : pyTruthy eligv = false := by
      cases he : pyTruthy eligv
      · rfl
      · exact absurd he hE
    simp only [hE2, Bool.false_eq_true, if_false, pure, Except.pure, Except.ok.injEq] at h
    simp only [hE2, Bool.false_eq_true, if_false]
    exact h.symm

/-- C6 (amended): the recommendations are deterministic and ordered — one
entry per failing non-skill criterion in the fixed order cgpa, backlogs,
course, batch; then at most one skills entry, present exactly when skills
is `fail` with truthy required skills or `partial` with truthy missing
skills; then, when `isEligible` is truthy, two fixed affirmative statements
followed by a third only when the skills status is `pass` (skills-align
message) or `partial` (highlight-matched message), and when not eligible a
single corrective statement. -/
theorem c6_recommendations_structure :
    ∀ (cgpaB backlogsB courseB batchB : PyVal) (skills : Assoc)
      (req elig : PyVal) (comb : Assoc) (recs : List String)
      (sC sB sCo sBa sSk : PyVal),
      pySub cgpaB "status" = .ok sC →
      pySub backlogsB "status" = .ok sB →
      pySub courseB "status" = .ok sCo →
      pySub batchB "status" = .ok sBa →
      skills.lookup "status" = some sSk →
      buildRecommendations cgpaB backlogsB courseB batchB skills req elig comb = .ok recs →
      ∃ (mCo mBa mSk : String),
        recs =
          (if sC = .str "fail" then
            ["Improve your CGPA to at least " ++ pyStrOf (getD comb "minCGPA" (.float 0))]
           else []) ++
          (if sB = .str "fail" then ["Clear your active backlogs before applying"] else []) ++
          (if sCo = .str "fail" then [mCo] else []) ++
          (if sBa = .str "fail" then [mBa] else []) ++
          (if sSk = .str "fail" ∧ pyTruthy req = true then [mSk]
           else if sSk = .str "partial" ∧
              pyTruthy (getD skills "missingSkills" (.list [])) = true then [mSk]
           else []) ++
          (if pyTruthy elig = true then
            ["You are eligible! Prepare well for the selection process",
             "Review the job description and company information thoroughly"] ++
            (if sSk = .str "pass" then ["Your skills align well with the requirements"]
             else if sSk = .str "partial" then
               ["You have some of the desired skills - highlight them in your application"]
             else [])
           else ["Focus on meeting the basic eligibility criteria before applying"]) := by
  intro cgpaB backlogsB courseB batchB skills req elig comb recs sC sB sCo sBa sSk
    h1 h2 h3 h4 h5 h
  obtain ⟨r1, r2, r3, r4, r5, r6, b1, b2, b3, b4, b5, b6, hcat⟩ :=
    buildRecommendations_shape cgpaB backlogsB courseB batchB skills req elig comb recs h
  have e1 : r1 = (if sC = .str "fail" then
      ["Improve your CGPA to at least " ++ pyStrOf (getD comb "minCGPA" (.float 0))]
    else []) := by
    rw [recCgpa_char cgpaB comb sC h1] at b1
    injection b1 with b1
    exact b1.symm
  have e2 : r2 = (if sB = .str "fail" then
      ["Clear your active backlogs before applying"] else []) := by
    rw [recBacklogs_char backlogsB sB h2] at b2
    injection b2 with b2
    exact b2.symm
  obtain ⟨mCo, e3⟩ := recCourse_char courseB comb sCo r3 h3 b3
  obtain ⟨mBa, e4⟩ := recBatch_char batchB comb sBa r4 h4 b4
  obtain ⟨mSk, e5⟩ := recSkills_char skills req sSk r5 h5 b5
  have e6 := recClosing_char elig skills sSk r6 h5 b6
  exact ⟨mCo, mBa, mSk, by rw [hcat, e1, e2, e3, e4, e5, e6]⟩

/-- C6 witness: the structure theorem applied to a concrete build with a
failing cgpa entry, an eligible verdict and a passing skills result. -/
theorem c6_recommendations_structure_witness :
    ∃ (mCo mBa mSk : String),
      ["Improve your CGPA to at least 0.0",
       "You are eligible! Prepare well for the selection process",
       "Review the job description and company information thoroughly",
       "Your skills align well with the requirements"] =
        (if (PyVal.str "fail" : PyVal) = .str "fail" then
          ["Improve your CGPA to at least " ++ pyStrOf (getD [] "minCGPA" (.float 0))]
         else []) ++
        (if (PyVal.str "pass" : PyVal) = .str "fail" then
          ["Clear your active backlogs before applying"] else []) ++
        (if (PyVal.str "pass" : PyVal) = .str "fail" then [mCo] else []) ++
        (if (PyVal.str "pass" : PyVal) = .str "fail" then [mBa] else []) ++
        (if (PyVal.str "pass" : PyVal) = .str "fail" ∧ pyTruthy (.list []) = true then [mSk]
         else if (PyVal.str "pass" : PyVal) = .str "partial" ∧
            pyTruthy (getD [("status", PyVal.str "pass"), ("missingSkills", PyVal.list [])]
              "missingSkills" (.list [])) = true then [mSk]
         else []) ++
        (if pyTruthy (.bool true) = true then
          ["You are eligible! Prepare well for the selection process",
           "Review the job description and company information thoroughly"] ++
          (if (PyVal.str "pass" : PyVal) = .str "pass" then
            ["Your skills align well with the requirements"]
           else if (PyVal.str "pass" : PyVal) = .str "partial" then
             ["You have some of the desired skills - highlight them in your application"]
           else [])
         else ["Focus on meeting the basic eligibility criteria before applying"]) :=
  c6_recommendations_structure
    (.dict [("status", .str "fail"), ("message", .str "m")])
    (.dict [("status", .str "pass")]) (.dict [("status", .str "pass")])
    (.dict [("status", .str "pass")])
    [("status", .str "pass"), ("missingSkills", .list [])]
    (.list []) (.bool true) []
    ["Improve your CGPA to at least 0.0",
     "You are eligible! Prepare well for the selection process",
     "Review the job description and company information thoroughly",
     "Your skills align well with the requirements"]
    (.str "fail") (.str "pass") (.str "pass") (.str "pass") (.str "pass")
    (by decide) (by decide) (by decide) (by decide) (by decide) (by decide)

end SC2
